import Mathlib

/-!
Shallow embedding of the Project OVERLAY conversational-state engine and
word-particle simulator.

Sources embedded:
* `src/go/brain.go` — the `Brain` tension state machine, semantic classifier
  and silence escalator of the self-contained Go application.
* `src/ruby/state_manager.rb` (tension variant) and `src/unnamed/part_000`
  (the server-side `StateManager`) — the Ruby state authority.
* `src/go/main.go` (first file, the brain-based renderer) — particle physics
  (`Game.updatePhysics`) and spawning (`Game.spawnWordFromConfig`).

Modelling conventions: Go `float64` / Ruby `Float` arithmetic is modelled with
exact rationals; wall-clock instants (`time.Now()`) are explicit rational
parameters threaded through each call; each `rand.Float64()` draw is an
explicit rational parameter named for its role.
-/

namespace Overlay

/-- Go `strings.Contains s w` / Ruby `s.include?(w)`: substring test. -/
def containsSub (s w : String) : Bool :=
  decide (List.IsInfix w.toList s.toList)

/-- A word list hit: Go loop over `strings.Contains` / Ruby `any? include?`. -/
def containsAnyWord (s : String) (ws : List String) : Bool :=
  ws.any (fun w => containsSub s w)

/-- Go `strings.HasPrefix s pre`. -/
def startsWithStr (s pre : String) : Bool :=
  List.isPrefixOf pre.toList s.toList

/-- Go `len(text)`: UTF-8 byte length of a string. -/
def utf8Len (s : String) : ℕ :=
  (s.toList.map Char.utf8Size).sum

/-- brain.go line 9: `DangerWords`. -/
def DangerWords : List String :=
  ["矛盾", "ふざけるな", "嘘", "絶対", "違う", "変", "おかしい"]

/-- config.rb: `Config::DANGER_WORDS` used by the Ruby `StateManager`. -/
def DANGER_WORDS_rb : List String :=
  ["一旦", "普通", "簡単", "ちゃんと", "なる早", "みんな", "常識", "直感"]

/-- The three conversational states (Go returns the matching string). -/
inductive ConvState where
  | SPLIT
  | ALIGNED
  | UNKNOWN
deriving DecidableEq, Repr

/-- brain.go `Brain`: tension scalar, clocks and the silence stage. -/
structure Brain where
  tension : ℚ
  lastUpdate : ℚ
  lastSpeechTime : ℚ
  silenceStage : ℤ
deriving DecidableEq, Repr

/-- brain.go `NewBrain()` at wall-clock instant `t0` (tension and stage zero). -/
def Brain.init (t0 : ℚ) : Brain :=
  { tension := 0, lastUpdate := t0, lastSpeechTime := t0, silenceStage := 0 }

/-- brain.go `WordConfig`. -/
structure WordConfig where
  text : String
  style : String
  scale : ℚ
  scaleX : ℚ
  rot : ℚ
  color : String
  vy : ℚ
  vyMult : ℚ
  flash : Bool
  shake : ℚ
deriving DecidableEq, Repr

/-- brain.go `NewWordConfig`: the default config. -/
def NewWordConfig (text : String) : WordConfig :=
  { text := text, style := "normal", scale := 1, scaleX := 1, rot := 0,
    color := "white", vy := 0, vyMult := 1, flash := false, shake := 0 }

/-- brain.go `Brain.Recalculate`: linear decay by `dt * 0.5`, clamped at zero. -/
def Brain.recalculate (b : Brain) (now : ℚ) : Brain :=
  let dt := now - b.lastUpdate
  let t := b.tension - dt * (1/2)
  { b with lastUpdate := now, tension := if t < 0 then 0 else t }

/-- brain.go `Brain.GetState`: recalculate, then classify the tension. -/
def Brain.getState (b : Brain) (now : ℚ) : Brain × ConvState :=
  let b' := b.recalculate now
  (b', if 8 < b'.tension then ConvState.SPLIT
       else if 2 < b'.tension then ConvState.ALIGNED
       else ConvState.UNKNOWN)

/-- brain.go line 79: the impact keyword list. -/
def impactWords : List String :=
  ["絶対", "嘘", "違う", "矛盾", "変", "おかしい"]

/-- brain.go line 117: the conjunction keyword list. -/
def conjunctionWords : List String :=
  ["でも", "しかし", "だが", "逆に", "とは言え", "けど", "反対に"]

/-- brain.go line 129: the hesitation keyword list. -/
def hesitationWords : List String :=
  ["えっと", "うーん", "あの", "多分", "かな", "なんか", "えー"]

/-- brain.go lines 92-93: the vertical-inversion cue. -/
def vertCue (text : String) : Bool :=
  (containsSub text ("上下") || containsSub text ("天井") || containsSub text ("逆さま")) &&
  (containsSub text ("反転") || containsSub text ("逆"))

/-- brain.go lines 101-102: the horizontal-inversion cue. -/
def horizCue (text : String) : Bool :=
  (containsSub text ("左右") || containsSub text ("鏡")) &&
  (containsSub text ("反転") || containsSub text ("逆"))

/-- brain.go lines 109-110: the color-inversion cue. -/
def colorCue (text : String) : Bool :=
  (containsSub text ("色") || containsSub text ("カラー")) &&
  (containsSub text ("反転") || containsSub text ("違う"))

/-- brain.go `Brain.AnalyzeSemantics`: the ordered keyword-rule classifier
(impact first, then the three inversions, conjunctions, hesitations, default). -/
def Brain.analyzeSemantics (text : String) : WordConfig :=
  let cfg := NewWordConfig text
  if containsAnyWord text impactWords then
    { cfg with style := "impact", flash := true, shake := 20, color := "red", scale := 5/2 }
  else if vertCue text then
    { cfg with style := "invert_v", rot := 314159/100000, vyMult := -1, color := "cyan" }
  else if horizCue text then
    { cfg with style := "invert_h", scaleX := -1, color := "cyan" }
  else if colorCue text then
    { cfg with style := "invert_c", color := "cyan" }
  else if containsAnyWord text conjunctionWords then
    { cfg with style := "conjunction", scaleX := -1, rot := 314159/100000, color := "yellow" }
  else if containsAnyWord text hesitationWords then
    { cfg with style := "hesitation", color := "grey" }
  else cfg

/-- brain.go `Brain.ProcessText`: record speech time, reset the stage, bump
tension by 3.0 (danger word) or 0.2, recalculate, classify the text. -/
def Brain.processText (b : Brain) (text : String) (now : ℚ) : Brain × WordConfig :=
  let b1 := { b with lastSpeechTime := now, silenceStage := 0 }
  let hit := containsAnyWord text DangerWords
  let b2 := { b1 with tension := b1.tension + (if hit then 3 else 1/5) }
  ((b2.recalculate now), Brain.analyzeSemantics text)

/-- brain.go `Brain.CheckSilence`: staged silence escalation with a stage-4 loop. -/
def Brain.checkSilence (b : Brain) (now : ℚ) : Brain × Option (String × WordConfig) :=
  let duration := now - b.lastSpeechTime
  if 2 < duration ∧ b.silenceStage = 0 then
    ({ b with silenceStage := 1 },
     some ("...", { NewWordConfig "..." with style := "silence_dots", color := "grey_alpha", scale := 4/5 }))
  else if 5 < duration ∧ b.silenceStage = 1 then
    ({ b with silenceStage := 2 },
     some ("間", { NewWordConfig "間" with style := "silence_ma", color := "blue_white", scale := 1 }))
  else if 8 < duration ∧ b.silenceStage = 2 then
    ({ b with silenceStage := 3 },
     some ("沈黙", { NewWordConfig "沈黙" with style := "silence_heavy", color := "dark_grey", vy := 15, scale := 3/2 }))
  else if 12 < duration ∧ b.silenceStage = 3 then
    ({ b with silenceStage := 4 },
     some ("静寂", { NewWordConfig "静寂" with style := "silence_abyss", color := "black", vy := -1, scale := 2 }))
  else if 17 < duration ∧ b.silenceStage = 4 then
    ({ b with lastSpeechTime := now - 12 },
     some ("...", { NewWordConfig "..." with style := "silence_dots", color := "grey_alpha", scale := 1 }))
  else
    (b, none)

/-- brain.go `Brain.Reset`. -/
def Brain.reset (b : Brain) (now : ℚ) : Brain :=
  { b with tension := 0, lastSpeechTime := now, silenceStage := 0 }

/-- One externally visible call on the `Brain`. -/
inductive BrainOp where
  | process (text : String)
  | checkSilence
  | getState
  | reset
deriving DecidableEq, Repr

/-- The state reached by one `Brain` call issued at instant `now`. -/
def Brain.step (b : Brain) (op : BrainOp) (now : ℚ) : Brain :=
  match op with
  | BrainOp.process text => (b.processText text now).1
  | BrainOp.checkSilence => (b.checkSilence now).1
  | BrainOp.getState => (b.getState now).1
  | BrainOp.reset => b.reset now

/-- Run a timed sequence of `Brain` calls. -/
def Brain.run (b : Brain) : List (BrainOp × ℚ) → Brain
  | [] => b
  | (op, now) :: rest => Brain.run (b.step op now) rest

/-- Run `CheckSilence` at each tick instant of a list, collecting for every
emission the tick instant, the emitted style, and the stage just after. -/
def runSilence (b : Brain) : List ℚ → Brain × List (ℚ × String × ℤ)
  | [] => (b, [])
  | t :: ts =>
    let r := Brain.checkSilence b t
    let rest := runSilence r.1 ts
    match r.2 with
    | some e => (rest.1, (t, e.2.style, r.1.silenceStage) :: rest.2)
    | none => rest

/-- state_manager.rb `StateManager` instance state (tension variant). -/
structure StateManager where
  current_state : ConvState
  tension : ℚ
  last_update : ℚ
  last_speech_time : ℚ
  silence_stage : ℤ
deriving DecidableEq, Repr

/-- state_manager.rb `initialize` at wall-clock instant `t0`. -/
def StateManager.init (t0 : ℚ) : StateManager :=
  { current_state := ConvState.UNKNOWN, tension := 0, last_update := t0,
    last_speech_time := t0, silence_stage := 0 }

/-- state_manager.rb `recalculate`: decay by `dt * 0.5` clamped at zero, then
reclassify `@current_state` by the tension thresholds. -/
def StateManager.recalculate (m : StateManager) (now : ℚ) : StateManager :=
  let dt := now - m.last_update
  let t1 := m.tension - dt * (1/2)
  let t2 := if t1 < 0 then 0 else t1
  { m with
    last_update := now,
    tension := t2,
    current_state :=
      if 8 < t2 then ConvState.SPLIT
      else if 2 < t2 then ConvState.ALIGNED
      else ConvState.UNKNOWN }

/-- The record returned by state_manager.rb `get_state`. -/
structure StateRecord where
  state : ConvState
  tension : ℚ
  split_degree : ℚ
deriving DecidableEq, Repr

/-- state_manager.rb `get_state`: recalculate, then report state, tension and
`split_degree = (tension / 10).clamp(0, 1)`. -/
def StateManager.get_state (m : StateManager) (now : ℚ) : StateManager × StateRecord :=
  let m' := m.recalculate now
  (m', { state := m'.current_state, tension := m'.tension,
         split_degree := min (max (m'.tension / 10) 0) 1 })

/-- part_000 `analyze_semantics` result: the Ruby config hash. The keys that
only some branches add are modelled as `Option` fields defaulting to `none`. -/
structure RubyConfig where
  style : String
  rot : ℚ
  scalex : ℚ
  color : String
  vy_mult : ℚ
  flash : Option Bool
  shake : Option ℚ
  scale : Option ℚ
deriving DecidableEq, Repr

/-- part_000 line 32: the default config hash. -/
def rbDefaultConfig : RubyConfig :=
  { style := "normal", rot := 0, scalex := 1, color := "white", vy_mult := 1,
    flash := none, shake := none, scale := none }

/-- part_000 `analyze_semantics`: same keyword sets as brain.go, but with the
three inversion rules tested before the impact rule. -/
def analyze_semantics_rb (text : String) : RubyConfig :=
  if vertCue text then
    { rbDefaultConfig with style := "invert_v", rot := 314159/100000, vy_mult := -1, color := "cyan" }
  else if horizCue text then
    { rbDefaultConfig with style := "invert_h", scalex := -1, color := "cyan" }
  else if colorCue text then
    { rbDefaultConfig with style := "invert_c", color := "cyan" }
  else if containsAnyWord text impactWords then
    { rbDefaultConfig with
      style := "impact", flash := some true, shake := some 20,
      color := "red", scale := some (5/2) }
  else if containsAnyWord text conjunctionWords then
    { rbDefaultConfig with style := "conjunction", scalex := -1, rot := 314159/100000, color := "yellow" }
  else if containsAnyWord text hesitationWords then
    { rbDefaultConfig with style := "hesitation", color := "grey" }
  else rbDefaultConfig

/-- part_000 `process_text`: record speech time, reset the silence stage, bump
tension by 3.0 on a configured danger word else 0.2, recalculate, classify. -/
def StateManager.process_text (m : StateManager) (text : String) (now : ℚ) :
    StateManager × RubyConfig :=
  let m1 := { m with last_speech_time := now, silence_stage := 0 }
  let hit := containsAnyWord text DANGER_WORDS_rb
  let m2 := { m1 with tension := m1.tension + (if hit then 3 else 1/5) }
  ((m2.recalculate now), analyze_semantics_rb text)

/- ----------------------------------------------------------------------
Particle simulator, from src/go/main.go (first file: the brain-based app).
---------------------------------------------------------------------- -/

/-- main.go constants. -/
def ScreenWidth : ℚ := 1920

def ScreenHeight : ℚ := 1080

/-- main.go `updatePhysics`: `floorY := ScreenHeight - 100.0`. -/
def floorY : ℚ := ScreenHeight - 100

/-- main.go `updatePhysics`: `gravity := 0.25`. -/
def gravity : ℚ := 1/4

/-- An RGBA color (Go `color.RGBA`). -/
structure RGBA where
  r : ℕ
  g : ℕ
  b : ℕ
  a : ℕ
deriving DecidableEq, Repr

def ColRed : RGBA := ⟨198, 40, 40, 255⟩

def ColWhite : RGBA := ⟨240, 240, 240, 255⟩

def ColYellow : RGBA := ⟨253, 216, 53, 255⟩

def ColCyan : RGBA := ⟨0, 255, 255, 255⟩

/-- main.go `BarrageWord` (the cached glyph image is out of scope). -/
structure BarrageWord where
  text : String
  x : ℚ
  y : ℚ
  vx : ℚ
  vy : ℚ
  scale : ℚ
  scaleX : ℚ
  color : RGBA
  life : ℤ
  maxLife : ℤ
  isGlitch : Bool
  rotation : ℚ
  vrotation : ℚ
  isResting : Bool
  isFiller : Bool
deriving DecidableEq, Repr

/-- main.go `updatePhysics`, body of the barrage loop for one particle: if not
resting, apply gravity (scaled for fillers), integrate, apply friction, handle
the floor and wall collisions; in all cases decrement life by one. -/
def stepWord (b : BarrageWord) : BarrageWord :=
  if b.isResting then
    { b with life := b.life - 1 }
  else
    let grav := if b.isFiller then gravity * (1/5) else gravity
    let vy1 := b.vy + grav
    let x1 := b.x + b.vx
    let y1 := b.y + vy1
    let rot1 := b.rotation + b.vrotation
    let vx1 := b.vx * (49/50)
    let vrot1 := b.vrotation * (49/50)
    let hitFloor := floorY < y1
    let y2 := if hitFloor then floorY else y1
    let vyR := if hitFloor then vy1 * (-(3/5)) else vy1
    let vx2 := if hitFloor then vx1 * (4/5) else vx1
    let rest2 := hitFloor ∧ |vyR| < 1
    let vy2 := if hitFloor ∧ |vyR| < 1 then 0 else vyR
    let hitWall := x1 < 50 ∨ ScreenWidth - 50 < x1
    let vx3 := if hitWall then vx2 * (-(4/5)) else vx2
    let x2 := if hitWall then x1 + vx3 else x1
    { b with
      x := x2, y := y2, vx := vx3, vy := vy2, rotation := rot1,
      vrotation := vrot1, isResting := decide rest2, life := b.life - 1 }

/-- main.go `updatePhysics`, barrage pruning: rebuild the collection keeping
each stepped particle exactly when its decremented life is positive. -/
def updateBarrage (ws : List BarrageWord) : List BarrageWord :=
  ws.foldl (fun acc b =>
    let b' := stepWord b
    if 0 < b'.life then acc ++ [b'] else acc) []

/-- Go 64-bit signed integer wrap-around (int arithmetic in `textToColor`). -/
def wrap64 (z : ℤ) : ℤ :=
  (z + 2 ^ 63) % 2 ^ 64 - 2 ^ 63

/-- main.go `textToColor` hash loop: `hash = int(c) + ((hash << 5) - hash)`,
i.e. `c + 31 * hash` on wrapping 64-bit integers, over the runes of the text. -/
def textHash (s : String) : ℤ :=
  s.toList.foldl (fun h c => wrap64 ((c.toNat : ℤ) + 31 * h)) 0

/-- Go `math.Mod(q, 2)` for the non-negative arguments used in `textToColor`. -/
def qmod2 (q : ℚ) : ℚ :=
  q - 2 * (⌊q / 2⌋ : ℤ)

/-- Go `uint8(q)` for the in-range non-negative values used in `textToColor`. -/
def toU8 (q : ℚ) : ℕ :=
  (⌊q⌋).toNat

/-- main.go `textToColor`: hash the text to a hue, convert HSV-style to RGB. -/
def textToColor (s : String) : RGBA :=
  let hgo : ℤ := (textHash s).tmod 360
  let h : ℚ := (hgo.natAbs : ℚ)
  let sS : ℚ := 4/5
  let v : ℚ := 1/5
  let c := v * sS
  let x := c * (1 - |qmod2 (h / 60) - 1|)
  let m := v - c
  let rgb : ℚ × ℚ × ℚ :=
    if 0 ≤ h ∧ h < 60 then (c, x, 0)
    else if 60 ≤ h ∧ h < 120 then (x, c, 0)
    else if 120 ≤ h ∧ h < 180 then (0, c, x)
    else if 180 ≤ h ∧ h < 240 then (0, x, c)
    else if 240 ≤ h ∧ h < 300 then (x, 0, c)
    else if 300 ≤ h ∧ h < 360 then (c, 0, x)
    else (0, 0, 0)
  { r := toU8 ((rgb.1 + m) * 255), g := toU8 ((rgb.2.1 + m) * 255),
    b := toU8 ((rgb.2.2 + m) * 255), a := 255 }

/-- The `Game` fields read or written by `spawnWordFromConfig` (main.go, first
file). `currentState` is the state string maintained from `Brain.GetState`. -/
structure GameS where
  currentState : String
  micVolume : ℚ
  currentSpeaker : ℤ
  lastWordTime : ℚ
  shakeAmount : ℚ
  flashIntensity : ℚ
  targetBgColor : RGBA
  barrage : List BarrageWord
deriving DecidableEq, Repr

/-- One explicit value per `rand.Float64()` role drawn in `spawnWordFromConfig`
(each is a stand-in for one uniform draw from `[0,1)`). -/
structure SpawnRands where
  rRot : ℚ
  rVRot : ℚ
  rScale : ℚ
  rX : ℚ
  rY : ℚ
  rVX : ℚ
  rVY : ℚ
deriving DecidableEq, Repr

/-- main.go `spawnWordFromConfig`, turn logic: outside silence styles, flip the
speaker after a gap over 2000ms or on a conjunction, then record the time. -/
def spawnTurn (g : GameS) (style : String) (now : ℚ) : GameS :=
  if startsWithStr style ("silence_") then g
  else
    let spk := if 2 < now - g.lastWordTime ∨ style = "conjunction"
               then (g.currentSpeaker + 1) % 2 else g.currentSpeaker
    { g with currentSpeaker := spk, lastWordTime := now }

/-- main.go `spawnWordFromConfig`, background target: outside glitch, impact
and the SPLIT state, conjunctions force grey and any other text is hashed. -/
def spawnBg (g : GameS) (style text : String) : GameS :=
  if style ≠ "glitch" ∧ style ≠ "impact" ∧ g.currentState ≠ "SPLIT" then
    if style = "conjunction" then { g with targetBgColor := ⟨50, 50, 50, 255⟩ }
    else { g with targetBgColor := textToColor text }
  else g

/-- main.go `spawnWordFromConfig`, effect triggers: positive shake adds to the
shake accumulator and a flash flag sets the flash intensity to 1. -/
def spawnEffects (g : GameS) (cfg : WordConfig) : GameS :=
  let g1 := if 0 < cfg.shake then { g with shakeAmount := g.shakeAmount + cfg.shake } else g
  if cfg.flash then { g1 with flashIntensity := 1 } else g1

/-- Style-dependent physics defaults computed in `spawnWordFromConfig`. -/
structure SpawnDefaults where
  scale : ℚ
  life : ℤ
  colorVal : RGBA
  startX : ℚ
  startY : ℚ
  vx : ℚ
  vy : ℚ
deriving DecidableEq, Repr

/-- main.go `spawnWordFromConfig`, base positioning: the style branch choosing
scale, life, color, start position and velocity before config overrides. -/
def spawnDefaults (g : GameS) (style : String) (rnd : SpawnRands) : SpawnDefaults :=
  let nuanceScale0 := 1 + g.micVolume * 3
  let nuanceScale := if 4 < nuanceScale0 then 4 else nuanceScale0
  let scale0 := nuanceScale + rnd.rScale * (1/2)
  if style = "glitch" ∨ style = "impact" then
    { scale := scale0 * (3/2), life := 300, colorVal := ColRed,
      startX := ScreenWidth / 2 + rnd.rX * 400 - 200, startY := 0,
      vx := (rnd.rVX - 1/2) * 10, vy := (rnd.rVY - 1/2) * 10 }
  else if style = "silence_dots" then
    { scale := 1, life := 300, colorVal := ⟨100, 100, 100, 100⟩,
      startX := rnd.rX * ScreenWidth, startY := rnd.rY * ScreenHeight,
      vx := (rnd.rVX - 1/2) * (1/2), vy := (rnd.rVY - 1/2) * (1/2) }
  else if style = "silence_ma" then
    { scale := 3, life := 800, colorVal := ⟨200, 200, 255, 200⟩,
      startX := ScreenWidth / 2, startY := ScreenHeight / 3, vx := 0, vy := 0 }
  else if style = "silence_heavy" then
    { scale := 5, life := 1000, colorVal := ⟨50, 50, 50, 255⟩,
      startX := 100 + rnd.rX * (ScreenWidth - 200), startY := -100, vx := 0, vy := 15 }
  else if style = "silence_abyss" then
    { scale := 7, life := 1200, colorVal := ⟨5, 5, 20, 255⟩,
      startX := 100 + rnd.rX * (ScreenWidth - 200), startY := ScreenHeight + 100,
      vx := 0, vy := -1 }
  else if g.currentState = "SPLIT" then
    { scale := scale0, life := 600, colorVal := ColWhite,
      startX := ScreenWidth / 2 + rnd.rX * 400 - 200,
      startY := ScreenHeight * (2/5) + rnd.rY * 200 - 100,
      vx := (rnd.rVX - 1/2) * 10, vy := -5 - rnd.rVY * 5 }
  else if g.currentSpeaker = 0 then
    { scale := scale0, life := 600, colorVal := ColWhite,
      startX := ScreenWidth * (1/5) + rnd.rX * 100,
      startY := ScreenHeight * (2/5) + rnd.rY * 200 - 100,
      vx := 5 + rnd.rVX * 5, vy := -5 - rnd.rVY * 5 }
  else
    { scale := scale0, life := 600, colorVal := ColWhite,
      startX := ScreenWidth * (4/5) - rnd.rX * 100,
      startY := ScreenHeight * (2/5) + rnd.rY * 200 - 100,
      vx := -5 - rnd.rVX * 5, vy := -5 - rnd.rVY * 5 }

/-- main.go `spawnWordFromConfig`, color tag resolution: the `switch` mapping a
config color tag to a concrete color (unknown tags keep the branch default). -/
def overrideColor (base : RGBA) (tag : String) : RGBA :=
  if tag = "cyan" then ColCyan
  else if tag = "red" then ColRed
  else if tag = "yellow" then ColYellow
  else if tag = "grey" then ⟨200, 200, 200, 150⟩
  else if tag = "dark_grey" then ⟨50, 50, 50, 255⟩
  else if tag = "black" then ⟨5, 5, 20, 255⟩
  else if tag = "blue_white" then ⟨200, 200, 255, 200⟩
  else if tag = "grey_alpha" then ⟨100, 100, 100, 100⟩
  else base

/-- main.go `spawnWordFromConfig`, particle construction: style defaults, the
config overrides (each applied only when the field differs from its zero
value), the filler test on the UTF-8 byte length, and the SPLIT/glitch force
(red color, both velocity components doubled). -/
def mkBarrageWord (g : GameS) (cfg : WordConfig) (rnd : SpawnRands) : BarrageWord :=
  let d := spawnDefaults g cfg.style rnd
  let rot := if cfg.rot ≠ 0 then cfg.rot else (rnd.rRot - 1/2) * (1/2)
  let vrot := (rnd.rVRot - 1/2) * (1/10)
  let scaleX := if cfg.scaleX ≠ 1 then cfg.scaleX else 1
  let vy1 := if cfg.vy ≠ 0 then cfg.vy else d.vy
  let vy2 := if cfg.vyMult ≠ 1 then vy1 * cfg.vyMult else vy1
  let scl := if cfg.scale ≠ 1 then cfg.scale else d.scale
  let colorVal := overrideColor d.colorVal cfg.color
  let bw : BarrageWord :=
    { text := cfg.text, x := d.startX, y := d.startY, vx := d.vx, vy := vy2,
      scale := scl, scaleX := scaleX, color := colorVal, life := d.life,
      maxLife := d.life, isGlitch := decide (cfg.style = "glitch" ∨ cfg.style = "impact"),
      rotation := rot, vrotation := vrot, isResting := false,
      isFiller := decide (utf8Len cfg.text ≤ 3) && !(startsWithStr cfg.style ("silence_")) }
  if g.currentState = "SPLIT" ∨ cfg.style = "glitch" then
    { bw with color := ColRed, vx := bw.vx * 2, vy := bw.vy * 2 }
  else bw

/-- main.go `spawnWordFromConfig`: turn logic, background target, effect
triggers, then append the constructed particle to the barrage. -/
def spawnWordFromConfig (g : GameS) (cfg : WordConfig) (now : ℚ) (rnd : SpawnRands) : GameS :=
  let g1 := spawnTurn g cfg.style now
  let g2 := spawnBg g1 cfg.style cfg.text
  let g3 := spawnEffects g2 cfg
  { g3 with barrage := g3.barrage ++ [mkBarrageWord g3 cfg rnd] }

/- ----------------------------------------------------------------------
Concrete inputs used by witnesses and counterexamples.
---------------------------------------------------------------------- -/

/-- The loop config emitted by the stage-4 silence loop (brain.go 178-181). -/
def loopCfg : WordConfig :=
  { NewWordConfig "..." with style := "silence_dots", color := "grey_alpha", scale := 1 }

/-- Tick instants every 0.5s from 0.5s up to exactly 13.0s of silence. -/
def ticks13 : List ℚ :=
  [1/2, 1, 3/2, 2, 5/2, 3, 7/2, 4, 9/2, 5, 11/2, 6, 13/2, 7, 15/2, 8,
   17/2, 9, 19/2, 10, 21/2, 11, 23/2, 12, 25/2, 13]

/-- Expected silence emissions over `ticks13`: instant, style, stage after. -/
def silenceTrace13 : List (ℚ × String × ℤ) :=
  [(5/2, "silence_dots", 1), (11/2, "silence_ma", 2),
   (17/2, "silence_heavy", 3), (25/2, "silence_abyss", 4)]

/-- A manager holding tension 5 at instant 0. -/
def mgr5 : StateManager :=
  { current_state := ConvState.UNKNOWN, tension := 5, last_update := 0,
    last_speech_time := 0, silence_stage := 0 }

/-- A brain sitting at silence stage 4 since instant 0. -/
def b4 : Brain :=
  { tension := 0, lastUpdate := 0, lastSpeechTime := 0, silenceStage := 4 }

/-- A particle with two ticks of life left. -/
def p2 : BarrageWord :=
  { text := "a", x := 100, y := 100, vx := 0, vy := 0, scale := 1, scaleX := 1,
    color := ColWhite, life := 2, maxLife := 2, isGlitch := false, rotation := 0,
    vrotation := 0, isResting := false, isFiller := false }

/-- A non-resting, non-filler particle that crosses the floor this tick with a
post-gravity vertical speed of exactly 5.0. -/
def b9 : BarrageWord :=
  { text := "word", x := 960, y := floorY, vx := 0, vy := 19/4, scale := 1,
    scaleX := 1, color := ColWhite, life := 100, maxLife := 100, isGlitch := false,
    rotation := 0, vrotation := 0, isResting := false, isFiller := false }

/-- A brain at silence stage 1 since instant 0 (about to hit the 1→2 mark). -/
def brainStage1 : Brain :=
  { tension := 0, lastUpdate := 0, lastSpeechTime := 0, silenceStage := 1 }

/-- The config emitted at the 1→2 silence transition (brain.go 154-158). -/
def maCfg : WordConfig :=
  { NewWordConfig "間" with style := "silence_ma", color := "blue_white", scale := 1 }

/-- A quiet game state with an empty barrage. -/
def g0 : GameS :=
  { currentState := "UNKNOWN", micVolume := 0, currentSpeaker := 0, lastWordTime := 0,
    shakeAmount := 0, flashIntensity := 0, targetBgColor := ⟨0, 0, 0, 0⟩, barrage := [] }

/-- All random draws pinned to zero. -/
def rnd0 : SpawnRands :=
  { rRot := 0, rVRot := 0, rScale := 0, rX := 0, rY := 0, rVX := 0, rVY := 0 }

/- ----------------------------------------------------------------------
Helper lemmas.
---------------------------------------------------------------------- -/

/-- The zero clamp written with `if` equals `max 0`. -/
theorem ite_lt_zero_eq_max (t : ℚ) : (if t < 0 then (0 : ℚ) else t) = max 0 t := by
  split_ifs with h
  · exact (max_eq_left h.le).symm
  · exact (max_eq_right (not_lt.mp h)).symm

/-- `Brain.Recalculate` never stores a negative tension. -/
theorem Brain.recalculate_keeps_nonneg (b : Brain) (now : ℚ) :
    0 ≤ (b.recalculate now).tension := by
  simp only [Brain.recalculate]
  split_ifs with h
  · exact le_refl 0
  · exact not_lt.mp h

/-- `StateManager#recalculate` never stores a negative tension. -/
theorem StateManager.recalc_stays_nonneg (m : StateManager) (now : ℚ) :
    0 ≤ (m.recalculate now).tension := by
  simp only [StateManager.recalculate]
  split_ifs with h
  · exact le_refl 0
  · exact not_lt.mp h

/-- `Brain.CheckSilence` never touches the tension. -/
theorem Brain.checkSilence_tension (b : Brain) (now : ℚ) :
    ((b.checkSilence now).1).tension = b.tension := by
  simp only [Brain.checkSilence]
  split_ifs <;> rfl

/-- A run from a non-negative tension stays non-negative after every call. -/
theorem Brain.run_tension_nonneg (ops : List (BrainOp × ℚ)) (b : Brain)
    (h : 0 ≤ b.tension) : 0 ≤ (b.run ops).tension := by
  induction ops generalizing b with
  | nil => simpa [Brain.run] using h
  | cons p rest ih =>
    obtain ⟨op, now⟩ := p
    simp only [Brain.run]
    apply ih
    cases op with
    | process text => exact Brain.recalculate_keeps_nonneg _ now
    | checkSilence =>
      show 0 ≤ ((b.checkSilence now).1).tension
      rw [Brain.checkSilence_tension]
      exact h
    | getState => exact Brain.recalculate_keeps_nonneg b now
    | reset => simp [Brain.step, Brain.reset]

/- ----------------------------------------------------------------------
Claim theorems.
---------------------------------------------------------------------- -/

/-- C1: after every recalculation (in `Brain.GetState` and inside the Ruby
`StateManager#recalculate`), the classified state is SPLIT exactly when the
decayed tension exceeds 8.0, ALIGNED exactly when it lies in (2.0, 8.0], and
UNKNOWN exactly when it is at most 2.0, for every tension value. -/
theorem C1_state_banding (b : Brain) (m : StateManager) (now : ℚ) :
    (((b.getState now).2 = ConvState.SPLIT) ↔ 8 < (b.recalculate now).tension) ∧
    (((b.getState now).2 = ConvState.ALIGNED) ↔
      (2 < (b.recalculate now).tension ∧ (b.recalculate now).tension ≤ 8)) ∧
    (((b.getState now).2 = ConvState.UNKNOWN) ↔ (b.recalculate now).tension ≤ 2) ∧
    (((m.recalculate now).current_state = ConvState.SPLIT) ↔
      8 < (m.recalculate now).tension) ∧
    (((m.recalculate now).current_state = ConvState.ALIGNED) ↔
      (2 < (m.recalculate now).tension ∧ (m.recalculate now).tension ≤ 8)) ∧
    (((m.recalculate now).current_state = ConvState.UNKNOWN) ↔
      (m.recalculate now).tension ≤ 2) := by
  constructor
  · simp only [Brain.getState]
    split_ifs with h1 h2 <;> simp_all
  constructor
  · simp only [Brain.getState]
    split_ifs with h1 h2 <;> simp_all
  constructor
  · simp only [Brain.getState]
    split_ifs with h1 h2 <;> simp_all <;> linarith
  · have hst : (m.recalculate now).current_state =
        (if 8 < (m.recalculate now).tension then ConvState.SPLIT
         else if 2 < (m.recalculate now).tension then ConvState.ALIGNED
         else ConvState.UNKNOWN) := by
      simp only [StateManager.recalculate]
    rw [hst]
    refine ⟨?_, ?_, ?_⟩ <;> split_ifs with h1 h2 <;> simp_all <;> linarith

/-- C2: over every timed sequence of process/checkSilence/getState/reset calls
from a fresh brain, the stored tension is non-negative, and a single
recalculation from any state (any elapsed time, even negative) never leaves a
negative tension. -/
theorem C2_tension_nonneg :
    (∀ (b : Brain) (now : ℚ), 0 ≤ (b.recalculate now).tension) ∧
    (∀ (t0 : ℚ) (ops : List (BrainOp × ℚ)), 0 ≤ ((Brain.init t0).run ops).tension) := by
  refine ⟨Brain.recalculate_keeps_nonneg, ?_⟩
  intro t0 ops
  exact Brain.run_tension_nonneg ops (Brain.init t0) (le_refl 0)

/-- C3: every `process(text)` call adds exactly 3.0 to the tension when the
text contains a configured danger word and exactly 0.2 otherwise, then runs
the decay recalculation; the same call stores the current time as the last
speech time and resets the silence stage to 0 — in both the Go `Brain` and
the Ruby `StateManager`. -/
theorem C3_process_text (b : Brain) (m : StateManager) (text : String) (now : ℚ) :
    ((b.processText text now).1.tension =
      max 0 (b.tension + (if containsAnyWord text DangerWords then 3 else 1/5)
             - (now - b.lastUpdate) * (1/2))) ∧
    (b.processText text now).1.lastSpeechTime = now ∧
    (b.processText text now).1.silenceStage = 0 ∧
    ((m.process_text text now).1.tension =
      max 0 (m.tension + (if containsAnyWord text DANGER_WORDS_rb then 3 else 1/5)
             - (now - m.last_update) * (1/2))) ∧
    (m.process_text text now).1.last_speech_time = now ∧
    (m.process_text text now).1.silence_stage = 0 := by
  refine ⟨?_, rfl, rfl, ?_, rfl, rfl⟩
  · simp only [Brain.processText, Brain.recalculate]
    rw [ite_lt_zero_eq_max]
  · simp only [StateManager.process_text, StateManager.recalculate]
    rw [ite_lt_zero_eq_max]

/-- One `CheckSilence` call never lowers the silence stage. -/
theorem Brain.checkSilence_stage_mono (b : Brain) (now : ℚ) :
    b.silenceStage ≤ ((b.checkSilence now).1).silenceStage := by
  simp only [Brain.checkSilence]
  split_ifs with h1 h2 h3 h4 h5 <;> simp_all

/-- One `CheckSilence` call raises the silence stage by at most one. -/
theorem Brain.checkSilence_stage_le_succ (b : Brain) (now : ℚ) :
    ((b.checkSilence now).1).silenceStage ≤ b.silenceStage + 1 := by
  simp only [Brain.checkSilence]
  split_ifs with h1 h2 h3 h4 h5 <;> simp_all

/-- `CheckSilence` changes the stage only on a call that also emits a config. -/
theorem Brain.checkSilence_advance_isSome (b : Brain) (now : ℚ)
    (h : ((b.checkSilence now).1).silenceStage ≠ b.silenceStage) :
    ((b.checkSilence now).2).isSome = true := by
  revert h
  simp only [Brain.checkSilence]
  split_ifs with h1 h2 h3 h4 h5 <;> intro h <;> simp_all

/-- The final brain of a silence run steps through `checkSilence` head first. -/
theorem runSilence_fst (b : Brain) (t : ℚ) (ts : List ℚ) :
    (runSilence b (t :: ts)).1 = (runSilence ((b.checkSilence t).1) ts).1 := by
  simp only [runSilence]
  rcases (b.checkSilence t).2 with _ | e
  · rfl
  · rfl

/-- A silence run never lowers the stage. -/
theorem runSilence_stage_mono (ts : List ℚ) (b : Brain) :
    b.silenceStage ≤ (runSilence b ts).1.silenceStage := by
  induction ts generalizing b with
  | nil => exact le_refl _
  | cons t ts ih =>
    rw [runSilence_fst]
    exact le_trans (Brain.checkSilence_stage_mono b t) (ih _)

/-- At stage 4 the stage is fixed: no `CheckSilence` call changes it. -/
theorem Brain.checkSilence_stage4 (b : Brain) (h4 : b.silenceStage = 4) (t : ℚ) :
    ((b.checkSilence t).1).silenceStage = 4 := by
  simp only [Brain.checkSilence]
  split_ifs with h1 h2 h3 h5 h6 <;> simp_all

/-- C4: `get_state` first recalculates (also in the Go `GetState`) and reports
the classified state, the decayed tension and `splitDegree`, which always lies
in `[0, 1]` and equals `tension / 10` whenever the tension is at most 10. -/
theorem C4_get_state (m : StateManager) (b : Brain) (now : ℚ) :
    ((m.get_state now).1 = m.recalculate now) ∧
    ((b.getState now).1 = b.recalculate now) ∧
    ((m.get_state now).2.state = (m.recalculate now).current_state) ∧
    ((m.get_state now).2.tension = (m.recalculate now).tension) ∧
    (0 ≤ (m.get_state now).2.split_degree ∧ (m.get_state now).2.split_degree ≤ 1) ∧
    ((m.get_state now).2.tension ≤ 10 →
      (m.get_state now).2.split_degree = (m.get_state now).2.tension / 10) := by
  refine ⟨rfl, rfl, rfl, rfl, ⟨?_, ?_⟩, ?_⟩
  · show (0:ℚ) ≤ min (max ((m.recalculate now).tension / 10) 0) 1
    exact le_min (le_max_right _ _) zero_le_one
  · exact min_le_right _ _
  · intro h
    have h10 : (m.recalculate now).tension ≤ 10 := h
    have hnn := StateManager.recalc_stays_nonneg m now
    show min (max ((m.recalculate now).tension / 10) 0) 1 = (m.recalculate now).tension / 10
    rw [max_eq_left (by positivity), min_eq_left ?_]
    rw [div_le_one (by norm_num)]
    exact h10

/-- C4 witness: at tension 5 the reported `split_degree` is `tension / 10`. -/
theorem C4_get_state_witness :
    (mgr5.get_state 0).2.split_degree = (mgr5.get_state 0).2.tension / 10 := by
  refine (C4_get_state mgr5 (Brain.init 0) 0).2.2.2.2.2 ?_
  norm_num [mgr5, StateManager.get_state, StateManager.recalculate]

/-- C5 (amended): the Go classifier `Brain.AnalyzeSemantics` tests its rules
in the order impact, vertical inversion, horizontal inversion, color
inversion, conjunction, hesitation, default, and the first match alone fixes
the config — so impact plus conjunction always classifies impact there; the
legacy Ruby classifier (`part_000`) tests the inversion rules first, so its
impact rule wins only when no inversion cue matches. -/
theorem C5_classifier_priority (text : String) :
    (containsAnyWord text impactWords = true →
      Brain.analyzeSemantics text =
        { NewWordConfig text with
          style := "impact", flash := true, shake := 20, color := "red", scale := 5/2 }) ∧
    (containsAnyWord text impactWords = false → vertCue text = true →
      Brain.analyzeSemantics text =
        { NewWordConfig text with
          style := "invert_v", rot := 314159/100000, vyMult := -1, color := "cyan" }) ∧
    (containsAnyWord text impactWords = false → vertCue text = false →
      horizCue text = true →
      Brain.analyzeSemantics text =
        { NewWordConfig text with style := "invert_h", scaleX := -1, color := "cyan" }) ∧
    (containsAnyWord text impactWords = false → vertCue text = false →
      horizCue text = false → colorCue text = true →
      Brain.analyzeSemantics text =
        { NewWordConfig text with style := "invert_c", color := "cyan" }) ∧
    (containsAnyWord text impactWords = false → vertCue text = false →
      horizCue text = false → colorCue text = false →
      containsAnyWord text conjunctionWords = true →
      Brain.analyzeSemantics text =
        { NewWordConfig text with
          style := "conjunction", scaleX := -1, rot := 314159/100000, color := "yellow" }) ∧
    (containsAnyWord text impactWords = false → vertCue text = false →
      horizCue text = false → colorCue text = false →
      containsAnyWord text conjunctionWords = false →
      containsAnyWord text hesitationWords = true →
      Brain.analyzeSemantics text =
        { NewWordConfig text with style := "hesitation", color := "grey" }) ∧
    (containsAnyWord text impactWords = false → vertCue text = false →
      horizCue text = false → colorCue text = false →
      containsAnyWord text conjunctionWords = false →
      containsAnyWord text hesitationWords = false →
      Brain.analyzeSemantics text = NewWordConfig text) ∧
    (vertCue text = false → horizCue text = false → colorCue text = false →
      containsAnyWord text impactWords = true →
      analyze_semantics_rb text =
        { rbDefaultConfig with
          style := "impact", flash := some true, shake := some 20,
          color := "red", scale := some (5/2) }) := by
  refine ⟨?_, ?_, ?_, ?_, ?_, ?_, ?_, ?_⟩ <;>
    intro h1 <;> try intro h2 <;> try intro h3 <;> try intro h4 <;>
    try intro h5 <;> try intro h6
  all_goals simp_all [Brain.analyzeSemantics, analyze_semantics_rb]

/-- C5 witness: an utterance with an impact and a conjunction keyword is
classified impact by the Go classifier. -/
theorem C5_classifier_priority_witness :
    Brain.analyzeSemantics ("嘘だけど") =
      { NewWordConfig ("嘘だけど") with
        style := "impact", flash := true, shake := 20, color := "red", scale := 5/2 } ∧
    containsAnyWord ("嘘だけど") conjunctionWords = true :=
  ⟨(C5_classifier_priority ("嘘だけど")).1 rfl, rfl⟩

/-- C5 counterexample: the utterance 色は違うけど contains the impact keyword
違う and the conjunction keyword けど, yet the legacy Ruby classifier returns
style invert_c, not impact, because its color-inversion rule runs first. -/
theorem C5_classifier_priority_cex :
    containsAnyWord ("色は違うけど") impactWords = true ∧
    containsAnyWord ("色は違うけど") conjunctionWords = true ∧
    (analyze_semantics_rb ("色は違うけど")).style = "invert_c" ∧
    ¬ (analyze_semantics_rb ("色は違うけど")).style = "impact" := by
  refine ⟨rfl, rfl, rfl, ?_⟩
  decide

/-- C6: each `CheckSilence` call keeps the stage or advances it by exactly one
(never decreasing it and emitting a config whenever it changes), the stage
never decreases over any silent run of calls, and from a fresh brain a tick
every 0.5s through 13.0s of silence emits exactly the four staged configs at
the 2s/5s/8s/12s marks, visiting the stage sequence 1, 2, 3, 4. -/
theorem C6_silence_staging :
    (∀ (b : Brain) (now : ℚ),
      b.silenceStage ≤ ((b.checkSilence now).1).silenceStage ∧
      ((b.checkSilence now).1).silenceStage ≤ b.silenceStage + 1 ∧
      (((b.checkSilence now).1).silenceStage ≠ b.silenceStage →
        ((b.checkSilence now).2).isSome = true)) ∧
    (∀ (b : Brain) (ts : List ℚ),
      b.silenceStage ≤ (runSilence b ts).1.silenceStage) ∧
    (runSilence (Brain.init 0) ticks13).2 = silenceTrace13 := by
  refine ⟨fun b now => ⟨Brain.checkSilence_stage_mono b now,
    Brain.checkSilence_stage_le_succ b now,
    Brain.checkSilence_advance_isSome b now⟩,
    fun b ts => runSilence_stage_mono ts b, ?_⟩
  norm_num [ticks13, silenceTrace13, runSilence, Brain.checkSilence, Brain.init]

/-- C6 witness: the first stage advance (at 3s of silence) emits a config. -/
theorem C6_silence_staging_witness :
    (((Brain.init 0).checkSilence 3).2).isSome = true := by
  refine ((C6_silence_staging.1 (Brain.init 0) 3).2.2) ?_
  norm_num [Brain.checkSilence, Brain.init]

/-- At stage 4 with over 17s of measured silence, `CheckSilence` emits the
dots loop config and moves the speech mark back to 12s before now. -/
theorem Brain.checkSilence_loop_eq (b : Brain) (now : ℚ) (h4 : b.silenceStage = 4)
    (h17 : 17 < now - b.lastSpeechTime) :
    b.checkSilence now = ({ b with lastSpeechTime := now - 12 }, some ("...", loopCfg)) := by
  simp only [Brain.checkSilence, loopCfg]
  split_ifs with h1 h2 h3 h5 h6
  · exact absurd h1.2 (by omega)
  · exact absurd h2.2 (by omega)
  · exact absurd h3.2 (by omega)
  · exact absurd h5.2 (by omega)
  · rfl
  · exact absurd ⟨h17, h4⟩ h6

/-- C7: once the silence stage is 4 and silence continues, the loop branch
emits the dots config whenever the measured silence exceeds 17s, resets the
speech mark to 12s before now (so the next loop emission comes exactly 5s
later: nothing is emitted for 5s, then the dots config fires again), and the
stage stays 4 through every such call. -/
theorem C7_silence_loop (b : Brain) (now x : ℚ) (h4 : b.silenceStage = 4)
    (h17 : 17 < now - b.lastSpeechTime) :
    ((b.checkSilence now).2 = some ("...", loopCfg)) ∧
    ((b.checkSilence now).1.silenceStage = 4) ∧
    ((b.checkSilence now).1.lastSpeechTime = now - 12) ∧
    (∀ t : ℚ, ((b.checkSilence t).1).silenceStage = 4) ∧
    (x ≤ 5 → ((b.checkSilence now).1.checkSilence (now + x)).2 = none ∧
             ((b.checkSilence now).1.checkSilence (now + x)).1.silenceStage = 4) ∧
    (5 < x → ((b.checkSilence now).1.checkSilence (now + x)).2 = some ("...", loopCfg) ∧
             ((b.checkSilence now).1.checkSilence (now + x)).1.silenceStage = 4) := by
  have hb := Brain.checkSilence_loop_eq b now h4 h17
  refine ⟨by rw [hb], by rw [hb]; exact h4, by rw [hb], Brain.checkSilence_stage4 b h4, ?_, ?_⟩
  · intro hx
    rw [hb]
    constructor
    · show (Brain.checkSilence { b with lastSpeechTime := now - 12 } (now + x)).2 = none
      simp only [Brain.checkSilence]
      split_ifs with h1 h2 h3 h5 h6
      · exact absurd h1.2 (by show ¬ b.silenceStage = 0; omega)
      · exact absurd h2.2 (by show ¬ b.silenceStage = 1; omega)
      · exact absurd h3.2 (by show ¬ b.silenceStage = 2; omega)
      · exact absurd h5.2 (by show ¬ b.silenceStage = 3; omega)
      · exfalso
        have hgt : (17:ℚ) < now + x - (now - 12) := h6.1
        linarith
      · rfl
    · show ((Brain.checkSilence { b with lastSpeechTime := now - 12 } (now + x)).1).silenceStage = 4
      exact Brain.checkSilence_stage4 { b with lastSpeechTime := now - 12 } h4 (now + x)
  · intro hx
    rw [hb]
    have hloop := Brain.checkSilence_loop_eq { b with lastSpeechTime := now - 12 } (now + x)
      h4 (by show (17:ℚ) < now + x - (now - 12); linarith)
    constructor
    · show (Brain.checkSilence { b with lastSpeechTime := now - 12 } (now + x)).2 =
        some ("...", loopCfg)
      rw [hloop]
    · show ((Brain.checkSilence { b with lastSpeechTime := now - 12 } (now + x)).1).silenceStage = 4
      exact Brain.checkSilence_stage4 { b with lastSpeechTime := now - 12 } h4 (now + x)

/-- C7 witness: from stage 4 with 18s of silence the loop fires, and fires
again 6s after that call. -/
theorem C7_silence_loop_witness :
    ((b4.checkSilence 18).2 = some ("...", loopCfg)) ∧
    (((b4.checkSilence 18).1.checkSilence (18 + 6)).2 = some ("...", loopCfg)) := by
  have h := C7_silence_loop b4 18 6 rfl (by norm_num [b4])
  exact ⟨h.1, (h.2.2.2.2.2 (by norm_num)).1⟩

/-- Every stepped particle loses exactly one life, resting or not. -/
theorem stepWord_life (c : BarrageWord) : (stepWord c).life = c.life - 1 := by
  simp only [stepWord]
  split_ifs <;> rfl

/-- The barrage fold with any accumulator is the accumulator followed by the
stepped-and-filtered list. -/
theorem updateBarrage_foldl (ws : List BarrageWord) (acc : List BarrageWord) :
    ws.foldl (fun acc b =>
      let b' := stepWord b
      if 0 < b'.life then acc ++ [b'] else acc) acc
      = acc ++ (ws.map stepWord).filter (fun c => decide (0 < c.life)) := by
  induction ws generalizing acc with
  | nil => simp
  | cons b ws ih =>
    simp only [List.foldl_cons, List.map_cons, List.filter_cons, decide_eq_true_eq]
    split_ifs with h
    · rw [ih]
      simp
    · rw [ih]

/-- `updatePhysics` pruning is map-then-filter on positive decremented life. -/
theorem updateBarrage_eq (ws : List BarrageWord) :
    updateBarrage ws = (ws.map stepWord).filter (fun c => decide (0 < c.life)) := by
  simpa using updateBarrage_foldl ws []

/-- The barrage update on a single particle keeps it exactly when its
decremented life is positive. -/
theorem updateBarrage_singleton (c : BarrageWord) :
    updateBarrage [c] = if 0 < (stepWord c).life then [stepWord c] else [] := by
  simp only [updateBarrage, List.foldl_cons, List.foldl_nil]
  split_ifs with h <;> simp

/-- Iterating the barrage update on one particle: it survives while its
initial life exceeds the tick count, with its life reduced accordingly, and
the collection is empty as soon as the tick count reaches its life. -/
theorem updateBarrage_iterate (k : ℕ) (b : BarrageWord) (h : 0 < b.life) :
    ((k : ℤ) < b.life → ∃ c, updateBarrage^[k] [b] = [c] ∧ c.life = b.life - k) ∧
    (b.life ≤ (k : ℤ) → updateBarrage^[k] [b] = []) := by
  induction k with
  | zero =>
    refine ⟨fun _ => ⟨b, rfl, by simp⟩, fun hle => absurd h (by omega)⟩
  | succ k ih =>
    constructor
    · intro hk
      obtain ⟨c, hc, hlife⟩ := ih.1 (by push_cast at hk ⊢; omega)
      refine ⟨stepWord c, ?_, ?_⟩
      · rw [Function.iterate_succ_apply', hc, updateBarrage_singleton, if_pos]
        rw [stepWord_life, hlife]
        push_cast at hk ⊢
        omega
      · rw [stepWord_life, hlife]
        push_cast
        ring
    · intro hk
      rcases le_or_lt b.life (k : ℤ) with hk' | hk'
      · rw [Function.iterate_succ_apply', ih.2 hk']
        rfl
      · obtain ⟨c, hc, hlife⟩ := ih.1 hk'
        rw [Function.iterate_succ_apply', hc, updateBarrage_singleton, if_neg]
        rw [stepWord_life, hlife]
        push_cast at hk ⊢
        omega

/-- C8: on every tick each particle, resting or not, loses exactly one life;
the new collection keeps a stepped particle exactly when its decremented life
is positive; hence a particle with positive life survives exactly its life
count of ticks and is removed on precisely the tick its life reaches 0. -/
theorem C8_particle_life (ws : List BarrageWord) (b : BarrageWord) (k : ℕ)
    (hb : 0 < b.life) :
    (∀ c : BarrageWord, (stepWord c).life = c.life - 1) ∧
    updateBarrage ws = (ws.map stepWord).filter (fun c => decide (0 < c.life)) ∧
    (updateBarrage^[k] [b] ≠ [] ↔ (k : ℤ) < b.life) := by
  refine ⟨stepWord_life, updateBarrage_eq ws, ?_, ?_⟩
  · intro hne
    by_contra hk
    exact hne ((updateBarrage_iterate k b hb).2 (by omega))
  · intro hk
    obtain ⟨c, hc, -⟩ := (updateBarrage_iterate k b hb).1 hk
    rw [hc]
    simp

/-- C8 witness: a particle with life 2 is still present after one tick. -/
theorem C8_particle_life_witness : updateBarrage^[1] [p2] ≠ [] := by
  refine ((C8_particle_life [] p2 1 (by decide)).2.2).mpr ?_
  decide

/-- C9: a non-resting particle whose integrated position crosses the floor
line (and stays inside the wall band) is clamped to the floor, its vertical
speed is reflected by −0.6 (zeroed, with the resting flag set, exactly when
the reflected speed is below 1.0 in magnitude), and its horizontal speed is
damped by 0.8 on top of the regular 0.98 friction. -/
theorem C9_floor_bounce (b : BarrageWord)
    (hr : b.isResting = false)
    (hy : floorY < b.y + (b.vy + (if b.isFiller then gravity * (1/5) else gravity)))
    (hx1 : 50 ≤ b.x + b.vx) (hx2 : b.x + b.vx ≤ ScreenWidth - 50) :
    (stepWord b).y = floorY ∧
    ((stepWord b).vy =
      if |(b.vy + (if b.isFiller then gravity * (1/5) else gravity)) * (-(3/5))| < 1 then 0
      else (b.vy + (if b.isFiller then gravity * (1/5) else gravity)) * (-(3/5))) ∧
    ((stepWord b).isResting = true ↔
      |(b.vy + (if b.isFiller then gravity * (1/5) else gravity)) * (-(3/5))| < 1) ∧
    ((stepWord b).vx = b.vx * (49/50) * (4/5)) ∧
    ((stepWord b).x = b.x + b.vx) := by
  have hw : ¬ (b.x + b.vx < 50 ∨ ScreenWidth - 50 < b.x + b.vx) := by
    push_neg
    exact ⟨hx1, hx2⟩
  simp only [stepWord, hr]
  simp only [Bool.false_eq_true, if_false, hy, hw, if_true, true_and,
    decide_eq_true_eq]

/-- C9 witness: crossing the floor with a post-gravity vertical speed of 5.0
rebounds to −3.0, not yet resting, clamped to the floor line. -/
theorem C9_floor_bounce_witness :
    (stepWord b9).vy = -3 ∧ (stepWord b9).isResting = false ∧ (stepWord b9).y = floorY := by
  have h := C9_floor_bounce b9 rfl
    (by norm_num [b9, floorY, ScreenHeight, gravity])
    (by norm_num [b9]) (by norm_num [b9, ScreenWidth])
  refine ⟨?_, ?_, h.1⟩
  · rw [h.2.1, if_neg]
    · norm_num [b9, gravity]
    · norm_num [b9, gravity]
  · have hne : ¬ ((stepWord b9).isResting = true) := by
      rw [h.2.2.1]
      norm_num [b9, gravity]
    simpa using hne

/-- `spawnWordFromConfig` turn logic leaves the barrage unchanged. -/
theorem spawnTurn_barrage (g : GameS) (style : String) (now : ℚ) :
    (spawnTurn g style now).barrage = g.barrage := by
  simp only [spawnTurn]
  split_ifs <;> rfl

/-- `spawnWordFromConfig` background logic leaves the barrage unchanged. -/
theorem spawnBg_barrage (g : GameS) (style text : String) :
    (spawnBg g style text).barrage = g.barrage := by
  simp only [spawnBg]
  split_ifs <;> rfl

/-- `spawnWordFromConfig` effect triggers leave the barrage unchanged. -/
theorem spawnEffects_barrage (g : GameS) (cfg : WordConfig) :
    (spawnEffects g cfg).barrage = g.barrage := by
  simp only [spawnEffects]
  split_ifs <;> rfl

/-- The spawned particle's scale is the config scale when that differs from
1.0, else the style-branch default scale. -/
theorem mkBarrageWord_scale (g : GameS) (cfg : WordConfig) (rnd : SpawnRands) :
    (mkBarrageWord g cfg rnd).scale =
      if cfg.scale ≠ 1 then cfg.scale else (spawnDefaults g cfg.style rnd).scale := by
  simp only [mkBarrageWord]
  split_ifs <;> rfl

/-- The spawn appends exactly one particle, built by `mkBarrageWord`. -/
theorem spawnWordFromConfig_barrage (g : GameS) (cfg : WordConfig) (now : ℚ)
    (rnd : SpawnRands) :
    (spawnWordFromConfig g cfg now rnd).barrage =
      g.barrage ++ [mkBarrageWord
        (spawnEffects (spawnBg (spawnTurn g cfg.style now) cfg.style cfg.text) cfg)
        cfg rnd] := by
  simp only [spawnWordFromConfig]
  rw [spawnEffects_barrage, spawnBg_barrage, spawnTurn_barrage]

/-- C10 (amended): the config scale override in `spawnWordFromConfig` applies
exactly when the config scale differs from 1.0 — so any config with scale not
equal to 1.0 spawns a particle of exactly that scale, while the silence_ma
config, which carries scale 1.0, spawns at the style base scale 3.0. -/
theorem C10_spawn_scale_override (g : GameS) (cfg : WordConfig) (now : ℚ)
    (rnd : SpawnRands) (h : cfg.scale ≠ 1) :
    ∃ bw : BarrageWord,
      (spawnWordFromConfig g cfg now rnd).barrage = g.barrage ++ [bw] ∧
      bw.scale = cfg.scale := by
  refine ⟨mkBarrageWord
    (spawnEffects (spawnBg (spawnTurn g cfg.style now) cfg.style cfg.text) cfg)
    cfg rnd, spawnWordFromConfig_barrage g cfg now rnd, ?_⟩
  rw [mkBarrageWord_scale]
  simp [h]

/-- C10 witness: a config carrying scale 2.5 spawns a particle of scale 2.5. -/
theorem C10_spawn_scale_override_witness :
    ∃ bw : BarrageWord,
      (spawnWordFromConfig g0 (Brain.analyzeSemantics ("嘘")) 0 rnd0).barrage =
        g0.barrage ++ [bw] ∧
      bw.scale = (Brain.analyzeSemantics ("嘘")).scale := by
  refine C10_spawn_scale_override g0 (Brain.analyzeSemantics ("嘘")) 0 rnd0 ?_
  norm_num [Brain.analyzeSemantics, NewWordConfig, containsAnyWord, impactWords,
    containsSub]

/-- C10 counterexample: the silence_ma config emitted at the 1→2 transition
carries scale 1.0, yet spawning it produces a particle of scale 3.0, because
the Go override `if cfg.Scale != 1.0` skips configs whose scale is exactly
1.0. -/
theorem C10_spawn_scale_override_cex :
    ((brainStage1.checkSilence 6).2 = some ("間", maCfg)) ∧
    maCfg.scale = 1 ∧
    ((spawnWordFromConfig g0 maCfg 0 rnd0).barrage.map (fun w => w.scale) = [3]) ∧
    ¬ ((spawnWordFromConfig g0 maCfg 0 rnd0).barrage.map (fun w => w.scale) = [1]) := by
  have hbar := spawnWordFromConfig_barrage g0 maCfg 0 rnd0
  have hscale : (mkBarrageWord
      (spawnEffects (spawnBg (spawnTurn g0 maCfg.style 0) maCfg.style maCfg.text) maCfg)
      maCfg rnd0).scale = 3 := by
    rw [mkBarrageWord_scale]
    rw [if_neg (by simp [maCfg, NewWordConfig])]
    show (spawnDefaults _ maCfg.style rnd0).scale = 3
    have hsty : maCfg.style = "silence_ma" := rfl
    rw [hsty]
    simp only [spawnDefaults]
    rw [if_neg (by decide), if_neg (by decide), if_pos trivial]
  have hg0bar : g0.barrage = [] := rfl
  refine ⟨?_, rfl, ?_, ?_⟩
  · norm_num [brainStage1, Brain.checkSilence, maCfg]
  · rw [hbar, hg0bar]
    simp only [List.nil_append, List.map_cons, List.map_nil, hscale]
  · rw [hbar, hg0bar]
    simp only [List.nil_append, List.map_cons, List.map_nil, hscale]
    norm_num

end Overlay
